import Mathlib

/-!
Shallow embedding of the even-odd parity game (src/src/App.tsx).

The source is a single React component.  Its core logic — challenge
generation, expression evaluation, difficulty policy, queue management and
the round state machine — is embedded here as pure Lean functions.

Randomness: every call to the host's `Math.random()` is modelled as reading
the next element of an abstract stream of rationals (`Rand.floats`), indexed
by a cursor `k` that is threaded explicitly through every function that
consumes randomness.  A stream is `Valid` when every value lies in `[0, 1)`,
which is the contract of `Math.random()`.

JavaScript arithmetic on the small integers appearing here is exact, so
number-typed values are embedded as `ℤ`.  JavaScript `%` truncates toward
zero (sign of the dividend), which is `Int.tmod`; `Math.floor(a / b)` is the
floor of exact rational division.
-/

namespace EvenOdd

/-- The five arithmetic operator symbols of the source type `Operator`. -/
inductive Operator
  | add
  | sub
  | mul
  | div
  | mod
deriving DecidableEq

/-- Source type `ExpressionChallenge`: digit terms with operator symbols
applied positionally between consecutive terms. -/
structure ExpressionChallenge where
  terms : List ℤ
  operators : List Operator
deriving DecidableEq

/-- Source type `Challenge`: tagged union of a bare number and an
expression. -/
inductive Challenge
  | number (value : ℤ)
  | expression (e : ExpressionChallenge)
deriving DecidableEq

/-- Source type `GameStatus`. -/
inductive GameStatus
  | playing
  | ended
deriving DecidableEq

/-- The two guess directions accepted by `handleGuess`. -/
inductive Guess
  | even
  | odd
deriving DecidableEq

/-- Abstract stream of `Math.random()` outputs. -/
structure Rand where
  floats : Nat → ℚ

/-- The contract of `Math.random()`: every output lies in `[0, 1)`. -/
def Rand.Valid (r : Rand) : Prop :=
  ∀ k, 0 ≤ r.floats k ∧ r.floats k < 1

/-- Source `randomInt0to9`: `Math.floor(Math.random() * 10)`, reading the
draw at cursor `k`. -/
def randomInt0to9 (r : Rand) (k : Nat) : ℤ :=
  ⌊r.floats k * 10⌋

/-- Source `safeDivide`: `b === 0` gives `0`, otherwise
`Math.floor(a / b)`. -/
def safeDivide (a b : ℤ) : ℤ :=
  if b = 0 then 0 else ⌊(a : ℚ) / (b : ℚ)⌋

/-- Source `getUnlockedOperators`. -/
def getUnlockedOperators (combo : Nat) : List Operator :=
  if combo ≥ 30 then [.add, .sub, .mul, .div, .mod]
  else if combo ≥ 20 then [.add, .sub, .mul]
  else if combo ≥ 10 then [.add, .sub]
  else []

/-- Source `getScoreGain`. -/
def getScoreGain (combo : Nat) : Nat :=
  if combo ≥ 40 then 5
  else if combo ≥ 30 then 4
  else if combo ≥ 20 then 3
  else if combo ≥ 10 then 2
  else 1

/-- Source `generateExpression`.  `Array.from` first draws `termCount`
digits at cursors `k, k+1, …`, then the loop draws one raw float per
operator slot.  `operators[Math.floor(Math.random() * operators.length)]`
indexes a non-empty list whenever the caller's combo is at least 10 (the
only way `generateExpression` is reached from `generateChallenge`), so the
`getD` fallback used to embed JavaScript indexing is never taken there. -/
def generateExpression (r : Rand) (combo : Nat) (k : Nat) :
    ExpressionChallenge × Nat :=
  let operators := getUnlockedOperators combo
  let termCount := if combo ≥ 40 then 3 else 2
  let terms := (List.range termCount).map (fun i => randomInt0to9 r (k + i))
  let ops := (List.range (termCount - 1)).map (fun i =>
    operators.getD (⌊r.floats (k + termCount + i) * operators.length⌋).toNat
      Operator.add)
  (⟨terms, ops⟩, k + termCount + (termCount - 1))

/-- Source `generateChallenge`: combo below 10 always yields a number;
otherwise a coin flip (`Math.random() < 0.5`) chooses between a number and
an expression. -/
def generateChallenge (r : Rand) (combo : Nat) (k : Nat) : Challenge × Nat :=
  if combo < 10 then (.number (randomInt0to9 r k), k + 1)
  else if r.floats k < 1 / 2 then (.number (randomInt0to9 r (k + 1)), k + 2)
  else
    let res := generateExpression r combo (k + 1)
    (.expression res.1, res.2)

/-- Source `generateQueue`: `Array.from({ length }, …)` generates the
challenges front first, threading the random cursor left to right. -/
def generateQueue (r : Rand) : Nat → Nat → Nat → List Challenge × Nat
  | 0, _, k => ([], k)
  | n + 1, combo, k =>
    let c := generateChallenge r combo k
    let rest := generateQueue r n combo c.2
    (c.1 :: rest.1, rest.2)

/-- One step of the `forEach` body in `evaluateExpression`: combine the
running result with the next term using the operator. -/
def evalStep (result : ℤ) (op : Operator) (next : ℤ) : ℤ :=
  match op with
  | .add => result + next
  | .sub => result - next
  | .mul => result * next
  | .div => safeDivide result next
  | .mod => if next = 0 then 0 else Int.tmod result next

/-- Source `evaluateExpression`: start from `terms[0]` and fold the
operators left to right, operator `i` consuming `terms[i + 1]`.  Generated
expressions always satisfy `operators.length = terms.length - 1`, so the
`zip` covers every operator exactly once. -/
def evaluateExpression (e : ExpressionChallenge) : ℤ :=
  (e.operators.zip e.terms.tail).foldl
    (fun result p => evalStep result p.1 p.2) (e.terms.headD 0)

/-- Source `isChallengeEven`: `x % 2 === 0` with JavaScript `%`
(truncating remainder, `Int.tmod`). -/
def isChallengeEven : Challenge → Bool
  | .number v => Int.tmod v 2 == 0
  | .expression e => Int.tmod (evaluateExpression e) 2 == 0

/-- The `correct` condition computed inside `handleGuess`. -/
def guessCorrect (g : Guess) (c : Challenge) : Bool :=
  (g == .even && isChallengeEven c) || (g == .odd && !isChallengeEven c)

/-- The component's state variables (`useState` hooks of `EvenOddGame`). -/
structure GameState where
  score : Nat
  combo : Nat
  timeLeft : ℤ
  status : GameStatus
  feedback : Option String
  isLocked : Bool
  queue : List Challenge
deriving DecidableEq

/-- The initial hook values at mount: status `ended`, timer 60, and a
preview queue of 5 challenges generated at combo 0. -/
def initialState (r : Rand) : GameState × Nat :=
  let q := generateQueue r 5 0 0
  ({ score := 0, combo := 0, timeLeft := 60, status := .ended,
     feedback := none, isLocked := false, queue := q.1 }, q.2)

/-- The timer effect's interval callback: installed only while status is
`playing` (the effect returns early otherwise); at `timeLeft ≤ 1` it pins
the timer to 0 and ends the round, otherwise it decrements. -/
def tick (s : GameState) : GameState :=
  if s.status ≠ .playing then s
  else if s.timeLeft ≤ 1 then { s with timeLeft := 0, status := .ended }
  else { s with timeLeft := s.timeLeft - 1 }

/-- Source `advanceQueue`: `[...q.slice(1), generateChallenge(newCombo)]`. -/
def advanceQueue (r : Rand) (q : List Challenge) (newCombo k : Nat) :
    List Challenge × Nat :=
  let c := generateChallenge r newCombo k
  (q.drop 1 ++ [c.1], c.2)

/-- The outcome of a submitted guess, as observable by the host layer
(sound cues): the guard path ignores the guess entirely. -/
inductive GuessOutcome
  | ignored
  | correctGuess
  | wrongGuess
deriving DecidableEq

/-- Source `handleGuess`: early return while not playing or locked; the
front of the queue is the active challenge; a correct guess bumps combo,
adds the post-increment score gain and advances the queue; a wrong guess
zeroes the combo, locks input and shows the wrong-answer feedback without
touching the queue (the `setTimeout` scheduling is modelled at the `SysState`
level). -/
def handleGuess (r : Rand) (s : GameState) (g : Guess) (k : Nat) :
    GameState × GuessOutcome × Nat :=
  if s.status ≠ .playing ∨ s.isLocked then (s, .ignored, k)
  else
    let current := s.queue.headD (.number 0)
    if guessCorrect g current then
      let nextCombo := s.combo + 1
      let scoreGain := getScoreGain nextCombo
      let adv := advanceQueue r s.queue nextCombo k
      ({ s with score := s.score + scoreGain, combo := nextCombo,
                feedback := some ("+" ++ toString scoreGain),
                queue := adv.1 }, .correctGuess, adv.2)
    else
      ({ s with feedback := some "Wrong!", combo := 0, isLocked := true },
       .wrongGuess, k)

/-- The body of the `setTimeout` callback scheduled by a wrong guess:
unlock, clear feedback and advance the queue at combo 0.  The source
callback has no status guard and no cancellation token. -/
def lockExpiryRun (r : Rand) (s : GameState) (k : Nat) : GameState × Nat :=
  let adv := advanceQueue r s.queue 0 k
  ({ s with isLocked := false, feedback := none, queue := adv.1 }, adv.2)

/-- Source `resetGame`: sets every state variable back to its
start-of-round value and installs a fresh 5-challenge queue generated at
combo 0.  It does not touch any scheduled `setTimeout`. -/
def resetGame (r : Rand) (k : Nat) : GameState × Nat :=
  let q := generateQueue r 5 0 k
  ({ score := 0, combo := 0, timeLeft := 60, status := .playing,
     feedback := none, isLocked := false, queue := q.1 }, q.2)

/-- Driver-level state: the component state, the list of scheduled and not
yet fired `setTimeout` lock-expiry callbacks (each entry is its remaining
time-units; the source never calls `clearTimeout` on them), and the random
cursor. -/
structure SysState where
  game : GameState
  pending : List Nat
  k : Nat
deriving DecidableEq

/-- The external events delivered by the host: a 1-time-unit timer tick, a
submitted guess, the firing of a due `setTimeout` callback, and the
play-again reset. -/
inductive Event
  | tick
  | guess (g : Guess)
  | expire
  | reset

/-- One event step of the driving layer, faithful to the source component:
a tick advances the game timer and brings every scheduled callback one
time-unit closer to firing; a wrong guess schedules a lock-expiry callback
2 time-units out; `expire` runs a due callback (and is a no-op when none is
due, since the host only fires timers it scheduled); `reset` rebuilds the
game state but — as in the source, which never cancels the `setTimeout` —
leaves every scheduled callback in place. -/
def sysStep (r : Rand) (st : SysState) : Event → SysState
  | .tick =>
    { st with game := tick st.game,
              pending := st.pending.map (fun n => n - 1) }
  | .guess g =>
    let res := handleGuess r st.game g st.k
    { game := res.1,
      pending := if res.2.1 = .wrongGuess then st.pending ++ [2]
                 else st.pending,
      k := res.2.2 }
  | .expire =>
    if st.pending.contains 0 then
      let res := lockExpiryRun r st.game st.k
      { game := res.1, pending := st.pending.erase 0, k := res.2 }
    else st
  | .reset =>
    let res := resetGame r st.k
    { game := res.1, pending := st.pending, k := res.2 }

/-- Run a sequence of external events. -/
def sysRun (r : Rand) (st : SysState) (es : List Event) : SysState :=
  es.foldl (sysStep r) st

/-- A constant random stream used for concrete executions: every
`Math.random()` call returns one half, so every generated digit is 5 and
every generated challenge at combo 0 is the odd number 5. -/
def rHalf : Rand := ⟨fun _ => 1 / 2⟩

/-- A cycling random stream used for concrete executions: the draw at
cursor `k` is `(k mod 10) / 10`, so the digit generated at cursor `k` is
`k mod 10` and consecutively generated challenges differ. -/
def rStep : Rand := ⟨fun k => ((k % 10 : Nat) : ℚ) / 10⟩

/-! ## Helper lemmas -/

lemma rHalf_valid : rHalf.Valid := by
  intro k
  constructor <;> norm_num [rHalf]

lemma randomInt0to9_range (r : Rand) (h : r.Valid) (k : Nat) :
    0 ≤ randomInt0to9 r k ∧ randomInt0to9 r k ≤ 9 := by
  obtain ⟨h0, h1⟩ := h k
  unfold randomInt0to9
  constructor
  · exact Int.le_floor.mpr (by push_cast; positivity)
  · have h2 : ⌊r.floats k * 10⌋ < 10 := by
      apply Int.floor_lt.mpr
      push_cast
      nlinarith
    omega

lemma getD_floor_mem (r : Rand) (h : r.Valid) (k : Nat) {l : List Operator}
    (hl : l ≠ []) :
    l.getD (⌊r.floats k * l.length⌋).toNat Operator.add ∈ l := by
  obtain ⟨h0, h1⟩ := h k
  have hlen : 0 < l.length := List.length_pos.mpr hl
  have hflt : ⌊r.floats k * l.length⌋ < l.length := by
    apply Int.floor_lt.mpr
    have : r.floats k * (l.length : ℚ) < 1 * (l.length : ℚ) := by
      apply mul_lt_mul_of_pos_right h1
      exact_mod_cast hlen
    simpa using this
  have hidx : (⌊r.floats k * l.length⌋).toNat < l.length := by omega
  rw [List.getD_eq_getElem l Operator.add hidx]
  exact List.getElem_mem hidx

lemma getUnlockedOperators_ne_nil {combo : Nat} (h : 10 ≤ combo) :
    getUnlockedOperators combo ≠ [] := by
  unfold getUnlockedOperators
  split_ifs <;> simp_all

lemma generateQueue_length (r : Rand) :
    ∀ n combo k, (generateQueue r n combo k).1.length = n := by
  intro n
  induction n with
  | zero => intro combo k; rfl
  | succ m ih =>
    intro combo k
    simp [generateQueue, ih]

lemma tick_playing_of_lt {s : GameState} (h : s.status = .playing)
    (ht : 1 < s.timeLeft) : tick s = { s with timeLeft := s.timeLeft - 1 } := by
  simp [tick, h]
  omega

lemma tick_iterate (n : Nat) :
    ∀ s : GameState, s.status = .playing → (n : ℤ) < s.timeLeft →
      tick^[n] s = { s with timeLeft := s.timeLeft - n } := by
  induction n with
  | zero => intro s _ _; simp
  | succ m ih =>
    intro s hs ht
    rw [Function.iterate_succ_apply]
    have h1 : 1 < s.timeLeft := by
      have : (0 : ℤ) ≤ (m : ℤ) := by positivity
      omega
    rw [tick_playing_of_lt hs h1]
    rw [ih _ (by simp [hs]) (by simp; omega)]
    simp
    ring

lemma tick_ended {s : GameState} (h : s.status = .ended) : tick s = s := by
  simp [tick, h]

lemma tick_queue (s : GameState) : (tick s).queue = s.queue := by
  unfold tick
  split_ifs <;> rfl

lemma sysRun_append (r : Rand) (st : SysState) (es₁ es₂ : List Event) :
    sysRun r st (es₁ ++ es₂) = sysRun r (sysRun r st es₁) es₂ := by
  simp [sysRun, List.foldl_append]

/-! ## Claim theorems -/

/-- C2: expression evaluation folds the operators left to right starting
from the first term; add, subtract and multiply are standard integer
arithmetic; an integer-divide step is the floor of exact division except
that a zero divisor makes the step return 0; a modulo step is the
truncating remainder except that a zero divisor makes the step return 0;
in particular `[7, 0]` under divide and `[5, 0]` under modulo both
evaluate to 0. -/
theorem evaluateExpression_leftAssoc_zeroPolicy_c2 :
    (∀ t₁ t₂ : ℤ, ∀ ts : List ℤ, ∀ op : Operator, ∀ ops : List Operator,
      evaluateExpression ⟨t₁ :: t₂ :: ts, op :: ops⟩ =
        evaluateExpression ⟨evalStep t₁ op t₂ :: ts, ops⟩) ∧
    (∀ a b : ℤ, evalStep a .add b = a + b) ∧
    (∀ a b : ℤ, evalStep a .sub b = a - b) ∧
    (∀ a b : ℤ, evalStep a .mul b = a * b) ∧
    (∀ a b : ℤ, b ≠ 0 → evalStep a .div b = ⌊(a : ℚ) / (b : ℚ)⌋) ∧
    (∀ a : ℤ, evalStep a .div 0 = 0) ∧
    (∀ a b : ℤ, b ≠ 0 → evalStep a .mod b = Int.tmod a b) ∧
    (∀ a : ℤ, evalStep a .mod 0 = 0) ∧
    evaluateExpression ⟨[7, 0], [.div]⟩ = 0 ∧
    evaluateExpression ⟨[5, 0], [.mod]⟩ = 0 := by
  refine ⟨fun t₁ t₂ ts op ops => rfl, fun a b => rfl, fun a b => rfl,
    fun a b => rfl, ?_, fun a => rfl, ?_, fun a => rfl, by decide, by decide⟩
  · intro a b hb
    simp [evalStep, safeDivide, hb]
  · intro a b hb
    simp [evalStep, hb]

/-- Witness for C2: the divide and modulo steps at the nonzero divisor 2. -/
theorem evaluateExpression_zeroPolicy_c2_witness :
    evalStep 7 .div 2 = ⌊(7 : ℚ) / (2 : ℚ)⌋ ∧
    evalStep 5 .mod 2 = Int.tmod 5 2 :=
  ⟨evaluateExpression_leftAssoc_zeroPolicy_c2.2.2.2.2.1 7 2 (by decide),
   evaluateExpression_leftAssoc_zeroPolicy_c2.2.2.2.2.2.2.1 5 2 (by decide)⟩

/-- C3: the score gain is the documented tier function of combo with
inclusive-lower boundaries, and a correct guess while playing and unlocked
increments the combo and adds the gain evaluated at the post-increment
combo. -/
theorem scoreGain_tiers_postIncrement_c3 :
    (∀ c : Nat, 40 ≤ c → getScoreGain c = 5) ∧
    (∀ c : Nat, 30 ≤ c → c < 40 → getScoreGain c = 4) ∧
    (∀ c : Nat, 20 ≤ c → c < 30 → getScoreGain c = 3) ∧
    (∀ c : Nat, 10 ≤ c → c < 20 → getScoreGain c = 2) ∧
    (∀ c : Nat, c < 10 → getScoreGain c = 1) ∧
    getScoreGain 9 = 1 ∧ getScoreGain 10 = 2 ∧
    getScoreGain 39 = 4 ∧ getScoreGain 40 = 5 ∧
    (∀ (r : Rand) (s : GameState) (g : Guess) (k : Nat),
      s.status = .playing → s.isLocked = false →
      guessCorrect g (s.queue.headD (.number 0)) = true →
      (handleGuess r s g k).1.combo = s.combo + 1 ∧
      (handleGuess r s g k).1.score = s.score + getScoreGain (s.combo + 1) ∧
      (handleGuess r s g k).2.1 = .correctGuess) := by
  refine ⟨?_, ?_, ?_, ?_, ?_, by decide, by decide, by decide, by decide, ?_⟩
  · intro c h; unfold getScoreGain; split_ifs <;> first | rfl | omega
  · intro c h h'; unfold getScoreGain; split_ifs <;> first | rfl | omega
  · intro c h h'; unfold getScoreGain; split_ifs <;> first | rfl | omega
  · intro c h h'; unfold getScoreGain; split_ifs <;> first | rfl | omega
  · intro c h; unfold getScoreGain; split_ifs <;> first | rfl | omega
  · intro r s g k h1 h2 h3
    simp only [List.headD_eq_head?_getD] at h3
    simp [handleGuess, h1, h2, h3]

/-- Witness for C3: a correct guess from combo 9 on the even front
challenge 4 reaches combo 10 and gains `getScoreGain 10 = 2` points. -/
theorem scoreGain_postIncrement_c3_witness :
    (handleGuess rHalf ⟨0, 9, 60, .playing, none, false, [.number 4]⟩
        .even 0).1.combo = 9 + 1 ∧
    (handleGuess rHalf ⟨0, 9, 60, .playing, none, false, [.number 4]⟩
        .even 0).1.score = 0 + getScoreGain (9 + 1) ∧
    (handleGuess rHalf ⟨0, 9, 60, .playing, none, false, [.number 4]⟩
        .even 0).2.1 = .correctGuess :=
  scoreGain_tiers_postIncrement_c3.2.2.2.2.2.2.2.2.2 rHalf
    ⟨0, 9, 60, .playing, none, false, [.number 4]⟩ .even 0 rfl rfl (by decide)

/-- C5: a guess submitted while locked, or while the status is not
playing, leaves the whole state (and the random cursor) unchanged and is
reported as ignored; a tick while not playing is a no-op. -/
theorem locked_or_ended_noop_c5 :
    (∀ (r : Rand) (s : GameState) (g : Guess) (k : Nat),
      s.isLocked = true ∨ s.status = .ended →
      handleGuess r s g k = (s, .ignored, k)) ∧
    (∀ s : GameState, s.status ≠ .playing → tick s = s) := by
  constructor
  · intro r s g k h
    rcases h with h | h <;> simp [handleGuess, h]
  · intro s h
    simp [tick, h]

/-- Witness for C5: a guess while locked and a guess plus a tick in the
ended state are all strict no-ops. -/
theorem locked_or_ended_noop_c5_witness :
    handleGuess rHalf ⟨3, 0, 50, .playing, none, true, [.number 2]⟩ .even 4 =
      (⟨3, 0, 50, .playing, none, true, [.number 2]⟩, .ignored, 4) ∧
    handleGuess rHalf ⟨7, 2, 0, .ended, none, false, []⟩ .odd 9 =
      (⟨7, 2, 0, .ended, none, false, []⟩, .ignored, 9) ∧
    tick ⟨7, 2, 0, .ended, none, false, []⟩ = ⟨7, 2, 0, .ended, none, false, []⟩ :=
  ⟨locked_or_ended_noop_c5.1 rHalf _ .even 4 (Or.inl rfl),
   locked_or_ended_noop_c5.1 rHalf _ .odd 9 (Or.inr rfl),
   locked_or_ended_noop_c5.2 _ (by decide)⟩

/-- C8: the unlocked-operator sets are exactly the documented tiers with
inclusive-lower boundaries, are non-empty from combo 10 on, and grow
monotonically with combo. -/
theorem unlockedOperators_tiers_monotone_c8 :
    (∀ c : Nat, c < 10 → getUnlockedOperators c = []) ∧
    (∀ c : Nat, 10 ≤ c → c < 20 → getUnlockedOperators c = [.add, .sub]) ∧
    (∀ c : Nat, 20 ≤ c → c < 30 →
      getUnlockedOperators c = [.add, .sub, .mul]) ∧
    (∀ c : Nat, 30 ≤ c →
      getUnlockedOperators c = [.add, .sub, .mul, .div, .mod]) ∧
    (∀ c : Nat, 10 ≤ c → getUnlockedOperators c ≠ []) ∧
    (∀ c₁ c₂ : Nat, c₁ ≤ c₂ →
      getUnlockedOperators c₁ ⊆ getUnlockedOperators c₂) := by
  refine ⟨?_, ?_, ?_, ?_, fun c h => getUnlockedOperators_ne_nil h, ?_⟩
  · intro c h; unfold getUnlockedOperators; split_ifs <;> first | rfl | omega
  · intro c h h'; unfold getUnlockedOperators
    split_ifs <;> first | rfl | omega
  · intro c h h'; unfold getUnlockedOperators
    split_ifs <;> first | rfl | omega
  · intro c h; unfold getUnlockedOperators; split_ifs <;> first | rfl | omega
  · intro c₁ c₂ h
    unfold getUnlockedOperators
    split_ifs <;> first | decide | (exfalso; omega)

/-- Witness for C8: tier values at combos 15 and 34, and monotonicity
across the 10 and 30 boundaries. -/
theorem unlockedOperators_monotone_c8_witness :
    getUnlockedOperators 15 = [.add, .sub] ∧
    getUnlockedOperators 34 = [.add, .sub, .mul, .div, .mod] ∧
    getUnlockedOperators 15 ≠ [] ∧
    getUnlockedOperators 12 ⊆ getUnlockedOperators 34 :=
  ⟨unlockedOperators_tiers_monotone_c8.2.1 15 (by decide) (by decide),
   unlockedOperators_tiers_monotone_c8.2.2.2.1 34 (by decide),
   unlockedOperators_tiers_monotone_c8.2.2.2.2.1 15 (by decide),
   unlockedOperators_tiers_monotone_c8.2.2.2.2.2 12 34 (by decide)⟩

/-- C10: for any challenge the even guess is correct exactly when the
challenge's parity test holds and the odd guess is correct exactly when it
fails, so exactly one direction is correct; the parity test agrees with
mathematical parity of the number value, respectively of the evaluated
expression result, including negative results such as `0 - 5`. -/
theorem parity_guess_complementary_c10 :
    (∀ c : Challenge, guessCorrect .even c = isChallengeEven c) ∧
    (∀ c : Challenge, guessCorrect .odd c = !isChallengeEven c) ∧
    (∀ c : Challenge, guessCorrect .odd c = !guessCorrect .even c) ∧
    (∀ v : ℤ, isChallengeEven (.number v) = true ↔ 2 ∣ v) ∧
    (∀ e : ExpressionChallenge,
      isChallengeEven (.expression e) = true ↔ 2 ∣ evaluateExpression e) ∧
    evaluateExpression ⟨[0, 5], [.sub]⟩ = -5 ∧
    isChallengeEven (.expression ⟨[0, 5], [.sub]⟩) = false ∧
    guessCorrect .odd (.expression ⟨[0, 5], [.sub]⟩) = true := by
  refine ⟨fun c => by simp [guessCorrect], fun c => by simp [guessCorrect],
    fun c => by cases h : isChallengeEven c <;> simp [guessCorrect, h],
    ?_, ?_, by decide, by decide, by decide⟩
  · intro v
    simp only [isChallengeEven, beq_iff_eq]
    exact Int.dvd_iff_tmod_eq_zero.symm
  · intro e
    simp only [isChallengeEven, beq_iff_eq]
    exact Int.dvd_iff_tmod_eq_zero.symm

/-- C6: the initial fill and every reset produce a queue of exactly 5
challenges, and `advanceQueue` preserves length 5 by dropping exactly the
front element and appending exactly one challenge generated at the new
combo, keeping the 4 retained challenges in their relative order. -/
theorem queue_length_five_c6 :
    (∀ (r : Rand) (combo k : Nat), (generateQueue r 5 combo k).1.length = 5) ∧
    (∀ r : Rand, (initialState r).1.queue.length = 5) ∧
    (∀ (r : Rand) (k : Nat), (resetGame r k).1.queue.length = 5) ∧
    (∀ (r : Rand) (q : List Challenge) (newCombo k : Nat), q.length = 5 →
      (advanceQueue r q newCombo k).1.length = 5 ∧
      (advanceQueue r q newCombo k).1.take 4 = q.drop 1 ∧
      (advanceQueue r q newCombo k).1.drop 4 =
        [(generateChallenge r newCombo k).1]) := by
  refine ⟨fun r combo k => generateQueue_length r 5 combo k,
    fun r => by simp [initialState, generateQueue_length],
    fun r k => by simp [resetGame, generateQueue_length], ?_⟩
  intro r q newCombo k h
  have hd : (q.drop 1).length = 4 := by simp [h]
  refine ⟨by simp [advanceQueue, h], ?_, ?_⟩
  · show (q.drop 1 ++ [(generateChallenge r newCombo k).1]).take 4 = q.drop 1
    rw [← hd, List.take_left]
  · show (q.drop 1 ++ [(generateChallenge r newCombo k).1]).drop 4 =
      [(generateChallenge r newCombo k).1]
    rw [← hd, List.drop_left]

/-- Witness for C6: advancing a concrete 5-element queue. -/
theorem queue_length_five_c6_witness :
    (advanceQueue rHalf
        [.number 0, .number 1, .number 2, .number 3, .number 4] 7 0).1.length
      = 5 ∧
    (advanceQueue rHalf
        [.number 0, .number 1, .number 2, .number 3, .number 4] 7 0).1.take 4
      = ([.number 0, .number 1, .number 2, .number 3,
          .number 4] : List Challenge).drop 1 ∧
    (advanceQueue rHalf
        [.number 0, .number 1, .number 2, .number 3, .number 4] 7 0).1.drop 4
      = [(generateChallenge rHalf 7 0).1] :=
  queue_length_five_c6.2.2.2 rHalf
    [.number 0, .number 1, .number 2, .number 3, .number 4] 7 0 (by decide)

/-- C9: a tick while playing decrements the timer; at `timeLeft ≤ 1` it
pins the timer to 0 and ends the round; ticks in the ended state are
no-ops; the timer never becomes negative; and from a playing state with
`timeLeft = 60`, 60 consecutive ticks end the round exactly once (the
status is still playing strictly before the 60th tick) after which every
further tick is a no-op. -/
theorem timer_tick_c9 :
    (∀ s : GameState, s.status = .playing → 1 < s.timeLeft →
      tick s = { s with timeLeft := s.timeLeft - 1 }) ∧
    (∀ s : GameState, s.status = .playing → s.timeLeft ≤ 1 →
      tick s = { s with timeLeft := 0, status := .ended }) ∧
    (∀ s : GameState, s.status = .ended → tick s = s) ∧
    (∀ s : GameState, 0 ≤ s.timeLeft → 0 ≤ (tick s).timeLeft) ∧
    (∀ s : GameState, s.status = .playing → s.timeLeft = 60 →
      (∀ j : Nat, j < 60 → (tick^[j] s).status = .playing) ∧
      (tick^[60] s).status = .ended ∧ (tick^[60] s).timeLeft = 0 ∧
      (∀ m : Nat, tick^[m] (tick^[60] s) = tick^[60] s)) := by
  refine ⟨fun s hs ht => tick_playing_of_lt hs ht,
    fun s hs ht => by simp [tick, hs, ht],
    fun s hs => tick_ended hs, ?_, ?_⟩
  · intro s h
    unfold tick
    split_ifs with h1 h2
    · exact h
    · exact le_refl 0
    · show (0 : ℤ) ≤ s.timeLeft - 1
      omega
  · intro s hs ht
    have hj : ∀ j : Nat, j < 60 →
        tick^[j] s = { s with timeLeft := s.timeLeft - j } := by
      intro j hlt
      exact tick_iterate j s hs (by rw [ht]; exact_mod_cast hlt)
    have h59 : tick^[59] s = { s with timeLeft := 1 } := by
      rw [hj 59 (by omega), ht]
      norm_num
    have h60 : tick^[60] s = { s with timeLeft := 0, status := .ended } := by
      rw [Function.iterate_succ_apply', h59]
      simp [tick, hs]
    refine ⟨fun j hlt => by rw [hj j hlt]; exact hs,
      by rw [h60], by rw [h60], ?_⟩
    intro m
    exact Function.iterate_fixed (tick_ended (by rw [h60])) m

/-- Witness for C9: the 60-tick round end on a concrete playing state. -/
theorem timer_tick_c9_witness :
    (tick^[5] (⟨0, 0, 60, .playing, none, false, []⟩ : GameState)).status
      = .playing ∧
    (tick^[60] (⟨0, 0, 60, .playing, none, false, []⟩ : GameState)).status
      = .ended ∧
    (tick^[60] (⟨0, 0, 60, .playing, none, false, []⟩ : GameState)).timeLeft
      = 0 ∧
    tick^[3] (tick^[60] (⟨0, 0, 60, .playing, none, false, []⟩ : GameState))
      = tick^[60] (⟨0, 0, 60, .playing, none, false, []⟩ : GameState) := by
  obtain ⟨hp, he, ht, hfix⟩ :=
    timer_tick_c9.2.2.2.2 ⟨0, 0, 60, .playing, none, false, []⟩ rfl rfl
  exact ⟨hp 5 (by omega), he, ht, hfix 3⟩

/-- C7: below combo 10 the generator always returns a number challenge
carrying the next random digit, which lies in `[0, 9]`; and every
expression challenge the generator returns has 3 terms exactly when combo
is at least 40 and 2 otherwise, one operator fewer than terms, all terms
in `[0, 9]`, and every operator drawn from the unlocked set of the
generating combo. -/
theorem generator_shape_c7 :
    (∀ (r : Rand) (combo k : Nat), r.Valid → combo < 10 →
      (generateChallenge r combo k).1 = .number (randomInt0to9 r k) ∧
      0 ≤ randomInt0to9 r k ∧ randomInt0to9 r k ≤ 9) ∧
    (∀ (r : Rand) (combo k : Nat) (e : ExpressionChallenge), r.Valid →
      (generateChallenge r combo k).1 = .expression e →
      e.terms.length = (if combo ≥ 40 then 3 else 2) ∧
      e.operators.length = e.terms.length - 1 ∧
      (∀ t ∈ e.terms, 0 ≤ t ∧ t ≤ 9) ∧
      (∀ op ∈ e.operators, op ∈ getUnlockedOperators combo)) := by
  constructor
  · intro r combo k hv h
    exact ⟨by simp [generateChallenge, h], (randomInt0to9_range r hv k).1,
      (randomInt0to9_range r hv k).2⟩
  · intro r combo k e hv he
    by_cases h10 : combo < 10
    · simp [generateChallenge, h10] at he
    · unfold generateChallenge at he
      rw [if_neg h10] at he
      by_cases hc : r.floats k < 1 / 2
      · rw [if_pos hc] at he
        simp at he
      · rw [if_neg hc] at he
        simp at he
        subst he
        have hge : 10 ≤ combo := by omega
        refine ⟨by simp [generateExpression], by simp [generateExpression],
          ?_, ?_⟩
        · intro t ht
          simp only [generateExpression, List.mem_map, List.mem_range] at ht
          obtain ⟨i, hi, rfl⟩ := ht
          exact randomInt0to9_range r hv _
        · intro op hop
          simp only [generateExpression, List.mem_map, List.mem_range] at hop
          obtain ⟨i, hi, rfl⟩ := hop
          exact getD_floor_mem r hv _ (getUnlockedOperators_ne_nil hge)

/-- Witness for C7: at combo 0 the constant-half stream yields the number
challenge 5, and at combo 15 it yields the expression `5 - 5`, whose shape
satisfies the invariant. -/
theorem generator_shape_c7_witness :
    ((generateChallenge rHalf 0 0).1 = .number (randomInt0to9 rHalf 0) ∧
      0 ≤ randomInt0to9 rHalf 0 ∧ randomInt0to9 rHalf 0 ≤ 9) ∧
    ((⟨[5, 5], [.sub]⟩ : ExpressionChallenge).terms.length =
        (if 15 ≥ 40 then 3 else 2) ∧
      (⟨[5, 5], [.sub]⟩ : ExpressionChallenge).operators.length =
        (⟨[5, 5], [.sub]⟩ : ExpressionChallenge).terms.length - 1 ∧
      (∀ t ∈ (⟨[5, 5], [.sub]⟩ : ExpressionChallenge).terms,
        0 ≤ t ∧ t ≤ 9) ∧
      (∀ op ∈ (⟨[5, 5], [.sub]⟩ : ExpressionChallenge).operators,
        op ∈ getUnlockedOperators 15)) :=
  ⟨generator_shape_c7.1 rHalf 0 0
      (fun k => ⟨by norm_num [rHalf], by norm_num [rHalf]⟩) (by omega),
   generator_shape_c7.2 rHalf 15 0 ⟨[5, 5], [.sub]⟩
      (fun k => ⟨by norm_num [rHalf], by norm_num [rHalf]⟩)
      (by norm_num [generateChallenge, generateExpression, randomInt0to9,
        getUnlockedOperators, rHalf]
          ; decide)⟩

/-- C4: an incorrect guess while playing and unlocked zeroes the combo,
locks input and shows the wrong-answer feedback while leaving the queue
(and everything else) untouched; the scheduled lock-expiry fires once, 2
time-units later, and only then clears the lock and feedback and advances
the queue with a challenge generated at combo 0; during the lock window
neither a guess nor a tick changes the queue, so the mis-answered
challenge stays at the front until expiry. -/
theorem wrong_guess_lock_expiry_c4 :
    (∀ (r : Rand) (s : GameState) (g : Guess) (k : Nat),
      s.status = .playing → s.isLocked = false →
      guessCorrect g (s.queue.headD (.number 0)) = false →
      handleGuess r s g k =
        ({ s with feedback := some "Wrong!", combo := 0, isLocked := true },
         .wrongGuess, k)) ∧
    (∀ (r : Rand) (s : GameState) (k : Nat),
      (lockExpiryRun r s k).1.isLocked = false ∧
      (lockExpiryRun r s k).1.feedback = none ∧
      (lockExpiryRun r s k).1.queue =
        s.queue.drop 1 ++ [(generateChallenge r 0 k).1] ∧
      (lockExpiryRun r s k).1.score = s.score ∧
      (lockExpiryRun r s k).1.combo = s.combo ∧
      (lockExpiryRun r s k).1.timeLeft = s.timeLeft ∧
      (lockExpiryRun r s k).1.status = s.status) ∧
    (∀ (r : Rand) (st : SysState) (g : Guess), st.game.isLocked = true →
      sysStep r st (.guess g) = st) ∧
    (∀ (r : Rand) (st : SysState),
      (sysStep r st .tick).game.queue = st.game.queue) ∧
    (∀ (r : Rand) (st : SysState) (g : Guess),
      st.game.status = .playing → st.game.isLocked = false →
      guessCorrect g (st.game.queue.headD (.number 0)) = false →
      (sysStep r st (.guess g)).pending = st.pending ++ [2] ∧
      (sysStep r st (.guess g)).game.queue = st.game.queue) ∧
    (∀ (r : Rand) (st : SysState), st.pending.contains 0 = true →
      (sysStep r st .expire).game = (lockExpiryRun r st.game st.k).1 ∧
      (sysStep r st .expire).pending = st.pending.erase 0) ∧
    (∀ (r : Rand) (st : SysState), st.pending.contains 0 = false →
      sysStep r st .expire = st) := by
  refine ⟨?_, ?_, ?_, ?_, ?_, ?_, ?_⟩
  · intro r s g k h1 h2 h3
    simp only [List.headD_eq_head?_getD] at h3
    simp [handleGuess, h1, h2, h3]
  · intro r s k
    simp [lockExpiryRun, advanceQueue]
  · intro r st g h
    simp [sysStep, handleGuess, h]
  · intro r st
    simp [sysStep, tick_queue]
  · intro r st g h1 h2 h3
    simp only [List.headD_eq_head?_getD] at h3
    simp [sysStep, handleGuess, h1, h2, h3]
  · intro r st h
    have h' : 0 ∈ st.pending := by simpa using h
    simp [sysStep, h']
  · intro r st h
    have h' : ¬ (0 ∈ st.pending) := by simpa using h
    simp [sysStep, h']

/-- Witness for C4: a wrong guess on the odd front challenge 5 at combo
15, and a due lock-expiry firing on the resulting locked state. -/
theorem wrong_guess_lock_expiry_c4_witness :
    handleGuess rHalf
        ⟨2, 15, 30, .playing, none, false, [.number 5, .number 4]⟩ .even 7 =
      (⟨2, 0, 30, .playing, some "Wrong!", true, [.number 5, .number 4]⟩,
       .wrongGuess, 7) ∧
    (sysStep rHalf
        ⟨⟨2, 0, 30, .playing, some "Wrong!", true, [.number 5, .number 4]⟩,
         [0], 7⟩ .expire).game =
      (lockExpiryRun rHalf
        ⟨2, 0, 30, .playing, some "Wrong!", true, [.number 5, .number 4]⟩
        7).1 ∧
    (sysStep rHalf
        ⟨⟨2, 0, 30, .playing, some "Wrong!", true, [.number 5, .number 4]⟩,
         [0], 7⟩ .expire).pending = ([0] : List Nat).erase 0 :=
  ⟨wrong_guess_lock_expiry_c4.1 rHalf
      ⟨2, 15, 30, .playing, none, false, [.number 5, .number 4]⟩ .even 7
      rfl rfl (by decide),
   (wrong_guess_lock_expiry_c4.2.2.2.2.2.1 rHalf
      ⟨⟨2, 0, 30, .playing, some "Wrong!", true, [.number 5, .number 4]⟩,
       [0], 7⟩ (by decide)).1,
   (wrong_guess_lock_expiry_c4.2.2.2.2.2.1 rHalf
      ⟨⟨2, 0, 30, .playing, some "Wrong!", true, [.number 5, .number 4]⟩,
       [0], 7⟩ (by decide)).2⟩

/-- C1: counterexample execution.  The source `resetGame` rebuilds the
state but never cancels the `setTimeout` scheduled by a wrong guess, so
after the trace wrong-guess → reset the stale lock-expiry is still
pending, and two time-units later it fires against the freshly started
round and advances the fresh queue (dropping its front and appending a
challenge generated at combo 0), contradicting the cancellation the
specification demands.  The last conjunct replays the same failure along a
path reachable through the rendered UI alone: the wrong guess lands at
`timeLeft = 1`, the next tick ends the round, the player presses the
play-again button while the lock-expiry is still one time-unit out, and
the stale callback then advances the new round's queue. -/
theorem resetGame_stale_lock_expiry_c1 :
    (sysRun rStep ⟨(resetGame rStep 0).1, [], (resetGame rStep 0).2⟩
        [.guess .odd, .reset]).pending = [2] ∧
    (sysRun rStep ⟨(resetGame rStep 0).1, [], (resetGame rStep 0).2⟩
        [.guess .odd, .reset]).game =
      ⟨0, 0, 60, .playing, none, false,
        [.number 5, .number 6, .number 7, .number 8, .number 9]⟩ ∧
    sysRun rStep ⟨(resetGame rStep 0).1, [], (resetGame rStep 0).2⟩
        [.guess .odd, .reset, .tick, .tick, .expire] =
      ⟨⟨0, 0, 58, .playing, none, false,
        [.number 6, .number 7, .number 8, .number 9, .number 0]⟩, [], 11⟩ ∧
    ([.number 6, .number 7, .number 8, .number 9, .number 0] : List Challenge)
      ≠ [.number 5, .number 6, .number 7, .number 8, .number 9] ∧
    sysRun rStep ⟨(resetGame rStep 0).1, [], (resetGame rStep 0).2⟩
        (List.replicate 59 .tick ++
          [.guess .odd, .tick, .reset, .tick, .expire]) =
      ⟨⟨0, 0, 59, .playing, none, false,
        [.number 6, .number 7, .number 8, .number 9, .number 0]⟩, [], 11⟩ := by
  refine ⟨?_, ?_, ?_, by decide, ?_⟩
  · norm_num [sysRun, sysStep, resetGame, generateQueue, generateChallenge,
      randomInt0to9, rStep, handleGuess, guessCorrect, isChallengeEven, tick,
      lockExpiryRun, advanceQueue]
    try decide
  · norm_num [sysRun, sysStep, resetGame, generateQueue, generateChallenge,
      randomInt0to9, rStep, handleGuess, guessCorrect, isChallengeEven, tick,
      lockExpiryRun, advanceQueue]
    try decide
  · norm_num [sysRun, sysStep, resetGame, generateQueue, generateChallenge,
      randomInt0to9, rStep, handleGuess, guessCorrect, isChallengeEven, tick,
      lockExpiryRun, advanceQueue]
    try decide
  · have hstart : resetGame rStep 0 =
        (⟨0, 0, 60, .playing, none, false,
          [.number 0, .number 1, .number 2, .number 3, .number 4]⟩, 5) := by
      norm_num [resetGame, generateQueue, generateChallenge, randomInt0to9,
        rStep]
    rw [sysRun_append, hstart]
    have hticks : sysRun rStep
        ⟨⟨0, 0, 60, .playing, none, false,
          [.number 0, .number 1, .number 2, .number 3, .number 4]⟩, [], 5⟩
        (List.replicate 59 .tick) =
        ⟨⟨0, 0, 1, .playing, none, false,
          [.number 0, .number 1, .number 2, .number 3, .number 4]⟩, [], 5⟩ := by
      set_option maxRecDepth 4000 in decide
    rw [hticks]
    norm_num [sysRun, sysStep, resetGame, generateQueue, generateChallenge,
      randomInt0to9, rStep, handleGuess, guessCorrect, isChallengeEven, tick,
      lockExpiryRun, advanceQueue]
    try decide

end EvenOdd
